import Mathlib

/-!
Shallow embedding of monty/dev.py: the deprecation decorator (message
crafting, deadline escalation, function/class wrapping), the requires
guard, and the excepthook installer, with theorems checking the spec
claims against the embedded code.
-/

/-- A calendar date, as the (yyyy, MM, dd) deadline tuple of deprecated. -/
structure PyDate where
  year : Nat
  month : Nat
  day : Nat
deriving DecidableEq, Repr

/-- A point in time: a date plus seconds elapsed within the day.  Python
datetime objects compare field-lexicographically; this model keeps the
sub-day part as one seconds field. -/
structure PyDateTime where
  year : Nat
  month : Nat
  day : Nat
  secs : Nat
deriving DecidableEq, Repr

/-- datetime(*deadline): midnight at the start of the deadline date. -/
def PyDate.toMidnight (d : PyDate) : PyDateTime :=
  ⟨d.year, d.month, d.day, 0⟩

/-- Strict comparison of datetimes, lexicographic on the fields, as in
Python for valid dates. -/
def dtLt (a b : PyDateTime) : Bool :=
  a.year < b.year ||
    (a.year = b.year &&
      (a.month < b.month ||
        (a.month = b.month &&
          (a.day < b.day || (a.day = b.day && a.secs < b.secs)))))

/-- Zero-pad a number to two digits, as the %m and %d format directives. -/
def pad2 (n : Nat) : String :=
  if n < 10 then "0" ++ toString n else toString n

/-- Zero-pad a number to four digits, as the %Y format directive. -/
def pad4 (n : Nat) : String :=
  if n < 10 then "000" ++ toString n
  else if n < 100 then "00" ++ toString n
  else if n < 1000 then "0" ++ toString n
  else toString n

/-- The %Y-%m-%d strftime format used for deadlines. -/
def fmtDate (d : PyDate) : String :=
  pad4 d.year ++ "-" ++ pad2 d.month ++ "-" ++ pad2 d.day

/-- Displayable identity of a Python callable: its __name__ and its
__module__. -/
structure PyCallableId where
  name : String
  moduleName : String
deriving DecidableEq, Repr

/-- A replacement passed to deprecated: either a plain callable or a
property / classmethod / staticmethod wrapper around one. -/
inductive Replacement where
  | plain (f : PyCallableId)
  | prop (fget : PyCallableId)
  | classMeth (f : PyCallableId)
  | staticMeth (f : PyCallableId)
deriving DecidableEq, Repr

/-- Warning categories: the category keyword of deprecated. -/
inductive WarningCategory where
  | futureWarning
  | deprecationWarning
  | otherCat (name : String)
deriving DecidableEq, Repr

/-- An emitted warning: message text and category. -/
structure PyWarning where
  msg : String
  category : WarningCategory
deriving DecidableEq, Repr

/-- The configuration captured at decoration time: the arguments of
deprecated(replacement, message, deadline, category). -/
structure DeprecationCfg where
  replacement : Option Replacement
  message : String
  deadline : Option PyDate
  category : WarningCategory
deriving DecidableEq, Repr

/-- craft_message(old, replacement, message, deadline) from dev.py,
transcribed clause by clause.  old is represented by its __name__. -/
def craft_message (oldName : String) (replacement : Option Replacement)
    (message : String) (deadline : Option PyDate) : String :=
  let msg := oldName ++ " is deprecated"
  let msg := match deadline with
    | some dl => msg ++ ", and will be removed on " ++ fmtDate dl ++ "\n"
    | none => msg
  let msg := match replacement with
    | none => msg
    | some rep =>
      let r := match rep with
        | .plain f => f
        | .prop fget => fget
        | .classMeth f => f
        | .staticMeth f => f
      let msg := match deadline with
        | none => msg ++ "; use "
        | some _ => msg ++ "Use "
      msg ++ r.name ++ " in " ++ r.moduleName ++ " instead."
  if message ≠ "" then msg ++ "\n" ++ message else msg

/-- Python str.lstrip(chars): drop leading characters that occur anywhere
in chars (a character set, not an exact leading substring). -/
def pyLstrip (s : String) (chars : String) : String :=
  ⟨s.data.dropWhile (fun c => chars.data.contains c)⟩

/-- Python str.rstrip(chars): drop trailing characters that occur anywhere
in chars. -/
def pyRstrip (s : String) (chars : String) : String :=
  ⟨(s.data.reverse.dropWhile (fun c => chars.data.contains c)).reverse⟩

/-- Python str.strip() with no argument: remove whitespace at both ends. -/
def pyStripWs (s : String) : String :=
  pyRstrip (pyLstrip s " \t\n\x0b\x0c\r") " \t\n\x0b\x0c\r"

/-- The URL normalization chain of _is_in_owner_repo:
stdout.decode().strip().lstrip("https://github.com/")
.lstrip("git@github.com:").rstrip(".git"). -/
def normalizeRemoteUrl (stdout : String) : String :=
  pyRstrip
    (pyLstrip
      (pyLstrip (pyStripWs stdout) "https://github.com/")
      "git@github.com:")
    ".git"

/-- Outcome of running the git subprocess: the tool may be missing
(FileNotFoundError), or the process completed with an exit status and
captured stdout. -/
inductive GitOutcome where
  | toolMissing
  | completed (exitOk : Bool) (stdout : String)
deriving DecidableEq, Repr

/-- The environment variables the module reads: CI and
GITHUB_REPOSITORY, each possibly unset. -/
structure EnvVars where
  ci : Option String
  githubRepository : Option String
deriving DecidableEq, Repr

/-- _is_in_owner_repo from dev.py: on FileNotFoundError return False;
otherwise compare the normalized stdout against GITHUB_REPOSITORY.  In
Python a string never equals None, so an unset variable never matches.
The exit status of the completed process is ignored by the code. -/
def is_in_owner_repo (env : EnvVars) (git : GitOutcome) : Bool :=
  match git with
  | .toolMissing => false
  | .completed _ stdout =>
    match env.githubRepository with
    | none => false
    | some expected => normalizeRemoteUrl stdout == expected

/-- The escalation condition of raise_deadline_warning: deadline set, CI
set, now strictly past the deadline instant, and running in the owner
repository. -/
def escalates (deadline : Option PyDate) (env : EnvVars)
    (now : PyDateTime) (git : GitOutcome) : Bool :=
  match deadline with
  | none => false
  | some dl => env.ci.isSome && dtLt dl.toMidnight now && is_in_owner_repo env git

/-- The decorator closure returned by deprecated on success: it closes
over the captured configuration. -/
structure DecoratorObj where
  cfg : DeprecationCfg
deriving DecidableEq, Repr

/-- The deprecated(...) call itself: convert the deadline, run
raise_deadline_warning (which raises DeprecationWarning when the
escalation condition holds), then return the decorator closure. -/
def deprecatedEmbed (cfg : DeprecationCfg) (env : EnvVars)
    (now : PyDateTime) (git : GitOutcome) : Except String DecoratorObj :=
  if escalates cfg.deadline env now git then
    .error ("This function should have been removed on "
      ++ (match cfg.deadline with
          | some dl => fmtDate dl
          | none => "") ++ ".")
  else
    .ok ⟨cfg⟩

/-- A warning-emitting computation: threads the process-wide list of
warnings emitted so far. -/
def WarnM (β : Type) := List PyWarning → β × List PyWarning

/-- warnings.warn(msg, category): append one warning to the emitted
list. -/
def warnAct (w : PyWarning) : WarnM Unit :=
  fun ws => ((), ws ++ [w])

/-- Return a pure value, emitting nothing. -/
def pureW {β : Type} (b : β) : WarnM β :=
  fun ws => (b, ws)

/-- Sequence two warning-emitting computations. -/
def bindW {α β : Type} (m : WarnM α) (f : α → WarnM β) : WarnM β :=
  fun ws =>
    let p := m ws
    f p.1 p.2

/-- A Python function target: its __name__, __module__ and its
behavior on arguments (positional and keyword arguments abstracted as
one value of type α). -/
structure PyFuncObj (α β : Type) where
  name : String
  moduleName : String
  impl : α → β

/-- wrapped from deprecated_function_decorator: craft the message, warn
with the configured category, then call the original with the same
arguments and return its result. -/
def deprecated_function_decorator {α β : Type} (cfg : DeprecationCfg)
    (old : PyFuncObj α β) : α → WarnM β :=
  fun args =>
    bindW
      (warnAct ⟨craft_message old.name cfg.replacement cfg.message cfg.deadline,
                cfg.category⟩)
      (fun _ => pureW (old.impl args))

/-- new_init from deprecated_class_decorator, given the resolved original
initializer as a self-and-args transformer: warn, then run the original
initializer on the unchanged self and arguments. -/
def new_init {γ α : Type} (cfg : DeprecationCfg) (clsName : String)
    (originalInit : γ → α → γ) : γ → α → WarnM γ :=
  fun self args =>
    bindW
      (warnAct ⟨craft_message clsName cfg.replacement cfg.message cfg.deadline,
                cfg.category⟩)
      (fun _ => pureW (originalInit self args))

/-- An initializer attribute value: the default object initializer, a
user-defined one identified by an id, or the warning wrapper installed
by the class decorator. -/
inductive InitFn where
  | objectInit
  | user (id : Nat)
  | wrapped (msg : String) (category : WarningCategory) (inner : InitFn)
deriving DecidableEq, Repr

/-- A class object: name, optional own __init__ attribute, optional base
class, and the remaining class attributes. -/
structure PyClass where
  name : String
  ownInit : Option InitFn
  parent : Option Nat
  attrs : List (String × String)
deriving DecidableEq, Repr

/-- Attribute lookup for cls.__init__: the own attribute if present, else
the nearest ancestor with one, else object.__init__.  Fuel bounds the
parent chain. -/
def resolveInit (σ : Nat → PyClass) : Nat → Nat → InitFn
  | 0, _ => .objectInit
  | fuel + 1, c =>
    match (σ c).ownInit with
    | some f => f
    | none =>
      match (σ c).parent with
      | some p => resolveInit σ fuel p
      | none => .objectInit

/-- deprecated_class_decorator: read cls.__init__ once, build new_init
closing over it, assign cls.__init__ = new_init in place, and return the
same class object (here: the same class id, with the heap updated only
at that id). -/
def deprecated_class_decorator (cfg : DeprecationCfg) (σ : Nat → PyClass)
    (fuel : Nat) (c : Nat) : Nat × (Nat → PyClass) :=
  let originalInit := resolveInit σ fuel c
  let msg := craft_message (σ c).name cfg.replacement cfg.message cfg.deadline
  (c, Function.update σ c
    { σ c with
      ownInit := some (.wrapped msg cfg.category originalInit) })

/-- Run an initializer value on concrete per-class implementations: the
wrapper warns once, then runs the wrapped initializer; user and object
initializers emit nothing. -/
def runInitFn {γ α : Type} (impls : Nat → γ → α → γ) :
    InitFn → γ → α → WarnM γ
  | .objectInit => fun self _ => pureW self
  | .user i => fun self args => pureW (impls i self args)
  | .wrapped msg cat inner => fun self args =>
    bindW (warnAct ⟨msg, cat⟩)
      (fun _ => runInitFn impls inner self args)

/-- A decoration target as classified by the decorator closure:
inspect.isfunction, inspect.isclass, or anything else. -/
inductive PyTarget where
  | func (id : Nat)
  | cls (id : Nat)
  | other (descr : String)
deriving DecidableEq, Repr

/-- What decoration produced: a fresh wrapper function, or the same
(mutated) class. -/
inductive DecoratedTarget where
  | wrappedFunc (id : Nat)
  | decoratedClass (id : Nat)
deriving DecidableEq, Repr

/-- The decorator closure of deprecated: dispatch on the target kind,
raising TypeError for anything that is neither a function nor a class.
The class heap is returned unchanged except by the class branch. -/
def decoratorDispatch (cfg : DeprecationCfg) (σ : Nat → PyClass)
    (fuel : Nat) (t : PyTarget) :
    Except String DecoratedTarget × (Nat → PyClass) :=
  match t with
  | .func i => (.ok (.wrappedFunc i), σ)
  | .cls c =>
    let p := deprecated_class_decorator cfg σ fuel c
    (.ok (.decoratedClass p.1), p.2)
  | .other _ =>
    (.error "The @deprecated decorator can only be applied to classes or functions", σ)

/-- The requires decorator instance: condition, message and error class
captured at decoration time. -/
structure RequiresCfg where
  condition : Bool
  message : String
  errCls : String
deriving DecidableEq, Repr

/-- decorated from requires.__call__: check the stored condition, raise
the configured error class with the message when it is false, otherwise
delegate to the original callable. -/
def requiresCall {α β : Type} (r : RequiresCfg) (f : α → β) (args : α) :
    Except (String × String) β :=
  if !r.condition then .error (r.errCls, r.message)
  else .ok (f args)

/-- The two ultratb hook variants of install_excepthook. -/
inductive HookVariant where
  | colorTB
  | verboseTB
deriving DecidableEq, Repr

/-- The process-wide sys.excepthook slot: the interpreter default, or an
installed ultratb hook instance. -/
inductive ExcepthookSlot where
  | interpreterDefault
  | ultratbHook (variant : HookVariant)
deriving DecidableEq, Repr

/-- Python str.lower() on ASCII strings. -/
def pyLower (s : String) : String :=
  ⟨s.data.map Char.toLower⟩

/-- The dict(color=..., verbose=...).get(hook_type.lower(), None)
lookup. -/
def hookLookup (hookType : String) : Option HookVariant :=
  if pyLower hookType == "color" then some .colorTB
  else if pyLower hookType == "verbose" then some .verboseTB
  else none

/-- install_excepthook: if ultratb cannot be imported, warn and return 1;
if the hook name is unrecognized, return 2; otherwise install the hook
and return 0.  Returns the status, the new excepthook slot, and the
warnings emitted. -/
def install_excepthook (ultratbAvailable : Bool) (hookType : String)
    (hook : ExcepthookSlot) : Nat × ExcepthookSlot × List PyWarning :=
  if !ultratbAvailable then
    (1, hook,
      [⟨"Cannot install excepthook, IPyhon.core.ultratb not available",
        .otherCat "UserWarning"⟩])
  else
    match hookLookup hookType with
    | none => (2, hook, [])
    | some v => (0, .ultratbHook v, [])

/-- A concrete two-class heap used to instantiate the class-decoration
theorem: class 0 is a base class with its own initializer, class 1 a
subclass without one. -/
def sampleHeap : Nat → PyClass := fun n =>
  if n = 0 then ⟨"Base", some (.user 7), none, [("x", "1")]⟩
  else if n = 1 then ⟨"Sub", none, some 0, []⟩
  else ⟨"OtherCls", none, none, []⟩

/-- A concrete deprecation configuration used to instantiate theorems. -/
def sampleCfg : DeprecationCfg :=
  ⟨some (.plain ⟨"bar", "pkg.mod"⟩), "", none, .futureWarning⟩

/-- Helper: an if-then-error-else-ok equals the error exactly when the
condition holds. -/
theorem ifErrorEqIff {ε α : Type} (b : Bool) (e : ε) (x : α) :
    ((if b then (Except.error e : Except ε α) else .ok x) = .error e) ↔ b = true := by
  cases b <;> simp

/-- Helper: the escalation boolean unfolded to its three conjuncts when a
deadline is present. -/
theorem escalates_some (dl : PyDate) (env : EnvVars) (now : PyDateTime)
    (git : GitOutcome) :
    escalates (some dl) env now git = true ↔
      env.ci.isSome = true ∧ dtLt dl.toMidnight now = true ∧
        is_in_owner_repo env git = true := by
  simp [escalates, Bool.and_eq_true, and_assoc]

/-- Claim C1: the wrapper returned by the function decorator, on any
arguments, returns exactly the value of the original function on those
arguments, and each invocation emits exactly one warning, of the
configured category. -/
theorem wrapped_preserves_result_and_warns_once {α β : Type}
    (cfg : DeprecationCfg) (old : PyFuncObj α β) (args : α)
    (ws : List PyWarning) :
    (deprecated_function_decorator cfg old args ws).1 = old.impl args ∧
    (deprecated_function_decorator cfg old args ws).2 =
      ws ++ [⟨craft_message old.name cfg.replacement cfg.message cfg.deadline,
             cfg.category⟩] :=
  ⟨rfl, rfl⟩

/-- Claim C2: craft_message is a pure function of (target name,
replacement, message, deadline); the two concrete examples of the spec
hold exactly, and property, classmethod and staticmethod replacements are
unwrapped to the underlying callable first, producing the same message as
the plain callable. -/
theorem craft_message_examples_and_unwrap :
    craft_message "foo" (some (.plain ⟨"bar", "pkg.mod"⟩)) "" none =
      "foo is deprecated; use bar in pkg.mod instead." ∧
    craft_message "foo" (some (.plain ⟨"bar", "pkg.mod"⟩)) "" (some ⟨2099, 1, 1⟩) =
      "foo is deprecated, and will be removed on 2099-01-01\nUse bar in pkg.mod instead." ∧
    (∀ (f : PyCallableId) (oldName message : String) (deadline : Option PyDate),
      craft_message oldName (some (.prop f)) message deadline =
        craft_message oldName (some (.plain f)) message deadline ∧
      craft_message oldName (some (.classMeth f)) message deadline =
        craft_message oldName (some (.plain f)) message deadline ∧
      craft_message oldName (some (.staticMeth f)) message deadline =
        craft_message oldName (some (.plain f)) message deadline) :=
  ⟨by decide, by decide, fun f oldName message deadline => ⟨rfl, rfl, rfl⟩⟩

/-- Claim C3: with a deadline specified, the deprecated(...) call fails
with the hard-deadline error exactly when the CI flag is set, now is
strictly past the deadline instant, and the owner-repository check
succeeds; otherwise it returns the decorator, and the wrapper it installs
never fails at call time (every call returns the original result). -/
theorem escalation_iff_three_conditions (rep : Option Replacement)
    (message : String) (dl : PyDate) (cat : WarningCategory)
    (env : EnvVars) (now : PyDateTime) (git : GitOutcome) :
    (deprecatedEmbed ⟨rep, message, some dl, cat⟩ env now git =
        if env.ci.isSome && dtLt dl.toMidnight now && is_in_owner_repo env git
        then .error ("This function should have been removed on "
          ++ fmtDate dl ++ ".")
        else .ok ⟨⟨rep, message, some dl, cat⟩⟩) ∧
    (deprecatedEmbed ⟨rep, message, some dl, cat⟩ env now git =
        .error ("This function should have been removed on " ++ fmtDate dl ++ ".")
      ↔ env.ci.isSome = true ∧ dtLt dl.toMidnight now = true ∧
          is_in_owner_repo env git = true) ∧
    (∀ {α β : Type} (old : PyFuncObj α β) (args : α) (ws : List PyWarning),
      (deprecated_function_decorator ⟨rep, message, some dl, cat⟩ old args ws).1 =
        old.impl args) := by
  refine ⟨rfl, ?_, fun old args ws => rfl⟩
  have h := ifErrorEqIff (escalates (some dl) env now git)
    ("This function should have been removed on " ++ fmtDate dl ++ ".")
    (DecoratorObj.mk ⟨rep, message, some dl, cat⟩)
  exact (h.trans (escalates_some dl env now git))

/-- Claim C4 (code bug): the lstrip and rstrip calls treat their
arguments as character sets, so the normalization destroys owner and
repository characters; on the HTTPS form with owner mit the result is
nty, not mit/monty, and on the SSH form it is /monty. -/
theorem normalizeRemoteUrl_strips_owner_chars :
    normalizeRemoteUrl "https://github.com/mit/monty" = "nty" ∧
    normalizeRemoteUrl "git@github.com:mit/monty.git" = "/monty" ∧
    normalizeRemoteUrl "https://github.com/mit/monty" ≠ "mit/monty" :=
  ⟨by decide, by decide, by decide⟩

/-- Claim C5: the replacement initializer installed on a decorated class
emits exactly one warning of the configured category and then runs the
original initializer on the unchanged self and arguments, producing the
same instance state the original would have produced. -/
theorem new_init_warns_once_then_original {γ α : Type}
    (cfg : DeprecationCfg) (clsName : String) (originalInit : γ → α → γ)
    (self : γ) (args : α) (ws : List PyWarning) :
    (new_init cfg clsName originalInit self args ws).1 =
      originalInit self args ∧
    (new_init cfg clsName originalInit self args ws).2 =
      ws ++ [⟨craft_message clsName cfg.replacement cfg.message cfg.deadline,
             cfg.category⟩] :=
  ⟨rfl, rfl⟩

/-- Claim C6: decorating a target that is neither a function nor a class
fails immediately with the TypeError message, leaving the class heap
unchanged, while function and class targets decorate successfully. -/
theorem decorator_rejects_other_targets (cfg : DeprecationCfg)
    (σ : Nat → PyClass) (fuel : Nat) (d : String) :
    decoratorDispatch cfg σ fuel (.other d) =
      (.error "The @deprecated decorator can only be applied to classes or functions",
       σ) ∧
    (∀ i, (decoratorDispatch cfg σ fuel (.func i)).1 = .ok (.wrappedFunc i)) ∧
    (∀ c, (decoratorDispatch cfg σ fuel (.cls c)).1 = .ok (.decoratedClass c)) :=
  ⟨rfl, fun _ => rfl, fun _ => rfl⟩

/-- Claim C7: the requires guard with a false stored condition fails on
every call with exactly the configured error class and message, for any
arguments; with a true condition it delegates and returns the original
result unchanged. -/
theorem requires_guard_behavior {α β : Type} (message errCls : String)
    (f : α → β) (args : α) :
    requiresCall ⟨false, message, errCls⟩ f args = .error (errCls, message) ∧
    requiresCall ⟨true, message, errCls⟩ f args = .ok (f args) :=
  ⟨rfl, rfl⟩

/-- Claim C8 counterexample: with GITHUB_REPOSITORY set to the empty
string, a failed git invocation (empty captured output) is treated as an
owner-repository match, so with CI set and a past deadline the decoration
fails instead of succeeding. -/
theorem git_failure_can_still_escalate :
    deprecatedEmbed ⟨none, "", some ⟨2000, 1, 1⟩, .futureWarning⟩
        ⟨some "true", some ""⟩ ⟨2026, 10, 12, 0⟩ (.completed false "") =
      .error "This function should have been removed on 2000-01-01." := by
  rfl

/-- Claim C8 (amended): a missing git tool is silently treated as not in
the owner repository and decoration always succeeds; a completed-but-failed
invocation surfaces no error either, and with its (typically empty)
captured output it is treated as not in the owner repository — so
decoration succeeds — whenever the expected owner-repository environment
variable is unset or set to a nonempty value. -/
theorem git_failure_skips_escalation (cfg : DeprecationCfg)
    (env : EnvVars) (now : PyDateTime) :
    (is_in_owner_repo env .toolMissing = false ∧
     deprecatedEmbed cfg env now .toolMissing = .ok ⟨cfg⟩) ∧
    (env.githubRepository = none →
      ∀ (ok : Bool) (out : String),
        is_in_owner_repo env (.completed ok out) = false ∧
        deprecatedEmbed cfg env now (.completed ok out) = .ok ⟨cfg⟩) ∧
    (∀ e, env.githubRepository = some e → e ≠ "" →
      is_in_owner_repo env (.completed false "") = false ∧
      deprecatedEmbed cfg env now (.completed false "") = .ok ⟨cfg⟩) := by
  have hmiss : is_in_owner_repo env .toolMissing = false := rfl
  have hok : ∀ g : GitOutcome, is_in_owner_repo env g = false →
      deprecatedEmbed cfg env now g = .ok ⟨cfg⟩ := by
    intro g hg
    have hesc : escalates cfg.deadline env now g = false := by
      cases hdl : cfg.deadline with
      | none => rfl
      | some dl => simp [escalates, hg]
    simp [deprecatedEmbed, hesc]
  refine ⟨⟨hmiss, hok _ hmiss⟩, ?_, ?_⟩
  · intro hnone ok out
    have h : is_in_owner_repo env (.completed ok out) = false := by
      simp [is_in_owner_repo, hnone]
    exact ⟨h, hok _ h⟩
  · intro e hsome hne
    have h : is_in_owner_repo env (.completed false "") = false := by
      have hn : normalizeRemoteUrl "" = "" := rfl
      simp [is_in_owner_repo, hsome, hn]
      exact fun heq => hne heq.symm
    exact ⟨h, hok _ h⟩

/-- Claim C8 witness: the amended theorem applied at a concrete
configuration and environment. -/
theorem git_failure_skips_escalation_witness :
    deprecatedEmbed ⟨none, "", some ⟨2000, 1, 1⟩, .futureWarning⟩
        ⟨some "true", some "mit/monty"⟩ ⟨2026, 10, 12, 0⟩ .toolMissing =
      .ok ⟨⟨none, "", some ⟨2000, 1, 1⟩, .futureWarning⟩⟩ ∧
    is_in_owner_repo ⟨some "true", some "mit/monty"⟩ (.completed false "") = false ∧
    deprecatedEmbed ⟨none, "", some ⟨2000, 1, 1⟩, .futureWarning⟩
        ⟨some "true", some "mit/monty"⟩ ⟨2026, 10, 12, 0⟩ (.completed false "") =
      .ok ⟨⟨none, "", some ⟨2000, 1, 1⟩, .futureWarning⟩⟩ := by
  have h := git_failure_skips_escalation
    ⟨none, "", some ⟨2000, 1, 1⟩, .futureWarning⟩
    ⟨some "true", some "mit/monty"⟩ ⟨2026, 10, 12, 0⟩
  have h3 := h.2.2 "mit/monty" rfl (by decide)
  exact ⟨h.1.2, h3.1, h3.2⟩

/-- Claim C9: the traceback-hook installer returns 1 with exactly one
warning and an unchanged hook when the ultratb library is unavailable;
returns 2 with an unchanged hook and no warning when the library is
available but the hook name is unrecognized; and returns 0 exactly when
the library is available and the name is recognized, in which case the
hook slot is replaced by the selected variant. -/
theorem install_excepthook_status_codes (hookType : String)
    (hook : ExcepthookSlot) :
    (install_excepthook false hookType hook =
      (1, hook,
       [⟨"Cannot install excepthook, IPyhon.core.ultratb not available",
         .otherCat "UserWarning"⟩])) ∧
    (hookLookup hookType = none →
      install_excepthook true hookType hook = (2, hook, [])) ∧
    (∀ avail : Bool,
      ((install_excepthook avail hookType hook).1 = 0 ↔
        avail = true ∧ (hookLookup hookType).isSome = true)) ∧
    (∀ v, hookLookup hookType = some v →
      install_excepthook true hookType hook = (0, .ultratbHook v, [])) := by
  refine ⟨rfl, ?_, ?_, ?_⟩
  · intro hnone
    simp [install_excepthook, hnone]
  · intro avail
    cases avail with
    | false => simp [install_excepthook]
    | true =>
      cases hl : hookLookup hookType with
      | none => simp [install_excepthook, hl]
      | some v => simp [install_excepthook, hl]
  · intro v hv
    simp [install_excepthook, hv]

/-- Claim C9 witness: the installer applied with the library missing, with
an unrecognized name, and with a recognized name, at concrete inputs. -/
theorem install_excepthook_status_codes_witness :
    install_excepthook true "bogus" .interpreterDefault =
      (2, .interpreterDefault, []) ∧
    ((install_excepthook false "color" .interpreterDefault).1 = 0 ↔
      false = true ∧ (hookLookup "color").isSome = true) ∧
    install_excepthook true "CoLoR" .interpreterDefault =
      (0, .ultratbHook .colorTB, []) := by
  refine ⟨(install_excepthook_status_codes "bogus" .interpreterDefault).2.1 (by decide),
    ?_, (install_excepthook_status_codes "CoLoR" .interpreterDefault).2.2.2
      .colorTB (by decide)⟩
  exact (install_excepthook_status_codes "color" .interpreterDefault).2.2.1 false

/-- Helper: resolving the initializer of a class with no own initializer
and a parent that has one steps to the parent initializer. -/
theorem resolveInit_step (σ : Nat → PyClass) (n s : Nat)
    (hinit : (σ s).ownInit = none) (p : Nat) (hpar : (σ s).parent = some p)
    (f : InitFn) (hp : (σ p).ownInit = some f) :
    resolveInit σ (n + 2) s = f := by
  show resolveInit σ (n + 1 + 1) s = f
  simp [resolveInit, hinit, hpar, hp]

/-- Claim C10: decorating a class is an in-place mutation: the same class
id is returned, no other class in the heap changes, the name, parent and
other attributes of the class are untouched, its initializer attribute
becomes the warning wrapper around the previously resolved initializer,
and a subclass that has no initializer of its own resolves to the new
wrapper. -/
theorem class_decoration_mutates_in_place (cfg : DeprecationCfg)
    (σ : Nat → PyClass) (fuel c : Nat) :
    (deprecated_class_decorator cfg σ fuel c).1 = c ∧
    (∀ d, d ≠ c → (deprecated_class_decorator cfg σ fuel c).2 d = σ d) ∧
    ((deprecated_class_decorator cfg σ fuel c).2 c).name = (σ c).name ∧
    ((deprecated_class_decorator cfg σ fuel c).2 c).parent = (σ c).parent ∧
    ((deprecated_class_decorator cfg σ fuel c).2 c).attrs = (σ c).attrs ∧
    ((deprecated_class_decorator cfg σ fuel c).2 c).ownInit =
      some (.wrapped
        (craft_message (σ c).name cfg.replacement cfg.message cfg.deadline)
        cfg.category (resolveInit σ fuel c)) ∧
    (∀ s n, s ≠ c → (σ s).ownInit = none → (σ s).parent = some c →
      resolveInit (deprecated_class_decorator cfg σ fuel c).2 (n + 2) s =
        .wrapped
          (craft_message (σ c).name cfg.replacement cfg.message cfg.deadline)
          cfg.category (resolveInit σ fuel c)) := by
  have hupd : ∀ d, d ≠ c → (deprecated_class_decorator cfg σ fuel c).2 d = σ d := by
    intro d hd
    simp only [deprecated_class_decorator]
    exact Function.update_noteq hd _ _
  have hc : (deprecated_class_decorator cfg σ fuel c).2 c =
      { σ c with
        ownInit := some (.wrapped
          (craft_message (σ c).name cfg.replacement cfg.message cfg.deadline)
          cfg.category (resolveInit σ fuel c)) } := by
    simp only [deprecated_class_decorator]
    exact Function.update_same c _ _
  refine ⟨rfl, hupd, ?_, ?_, ?_, ?_, ?_⟩
  · rw [hc]
  · rw [hc]
  · rw [hc]
  · rw [hc]
  · intro s n hs hinit hpar
    refine resolveInit_step _ n s ?_ c ?_ _ ?_
    · rw [hupd s hs]
      exact hinit
    · rw [hupd s hs]
      exact hpar
    · rw [hc]

/-- Claim C10 witness: the in-place mutation theorem applied to a concrete
two-class heap, checking the untouched subclass entry, the untouched
attributes, and the subclass resolving to the new wrapper. -/
theorem class_decoration_mutates_in_place_witness :
    (deprecated_class_decorator sampleCfg sampleHeap 3 0).1 = 0 ∧
    (deprecated_class_decorator sampleCfg sampleHeap 3 0).2 1 = sampleHeap 1 ∧
    ((deprecated_class_decorator sampleCfg sampleHeap 3 0).2 0).attrs =
      (sampleHeap 0).attrs ∧
    resolveInit (deprecated_class_decorator sampleCfg sampleHeap 3 0).2 2 1 =
      .wrapped
        (craft_message (sampleHeap 0).name sampleCfg.replacement
          sampleCfg.message sampleCfg.deadline)
        sampleCfg.category (resolveInit sampleHeap 3 0) := by
  have h := class_decoration_mutates_in_place sampleCfg sampleHeap 3 0
  exact ⟨h.1, h.2.1 1 (by decide), h.2.2.2.2.1,
    h.2.2.2.2.2.2 1 0 (by decide) rfl rfl⟩
